import Mathlib

/-!
Shallow embedding of the StarsApplication API gateway (`src/main.py`).

The gateway fronts two backend services (a star data store and a content
moderation filter).  Each FastAPI route handler is modelled as a pure
function from the request data and the backend responses it would receive
to the gateway's result together with the ordered list of backend calls it
performs.  External effects (the JWT library, the HTTP client) enter as
explicit parameters.
-/

namespace StarsApp

/-- JSON values, as produced by `resp.json()` / accepted as request bodies. -/
inductive JValue where
  | null
  | bool (b : Bool)
  | num (n : Int)
  | str (s : String)
  | arr (xs : List JValue)
  | obj (fields : List (String × JValue))
deriving Repr

/-- Python truthiness (`if is_acceptable:`) on a JSON-decoded value:
`None`, `False`, `0`, `""`, `[]`, `{}` are falsy, everything else truthy. -/
def truthy : JValue → Bool
  | .null => false
  | .bool b => b
  | .num n => n != 0
  | .str s => s != ""
  | .arr xs => !xs.isEmpty
  | .obj fs => !fs.isEmpty

/-- Python truthiness of a `dict.get` result (`None` when the key is absent). -/
def truthyOpt : Option JValue → Bool
  | none => false
  | some v => truthy v

/-- `d.get(k)`: lookup in a Python dict (JSON objects have unique keys). -/
def jget : List (String × JValue) → String → Option JValue
  | [], _ => none
  | p :: rest, k => if p.1 == k then some p.2 else jget rest k

/-- `d[k] = v`: Python dict assignment — replace the value at an existing
key in place, otherwise append the new binding at the end. -/
def jset : List (String × JValue) → String → JValue → List (String × JValue)
  | [], k, v => [(k, v)]
  | p :: rest, k, v => if p.1 == k then (k, v) :: rest else p :: jset rest k v

/-- JSON serialization of a string literal.  Only the two escapes the
theorems below exercise (backslash and double quote) are modelled. -/
def escapeString (s : String) : String :=
  String.join (s.toList.map fun c =>
    if c = '"' then "\\\"" else if c = '\\' then "\\\\" else String.singleton c)

mutual

/-- Compact JSON serialization, modelling how a returned value or an
`HTTPException` detail is rendered onto the wire by the framework. -/
def renderJson : JValue → String
  | .null => "null"
  | .bool b => if b then "true" else "false"
  | .num n => toString n
  | .str s => "\"" ++ escapeString s ++ "\""
  | .arr xs => "[" ++ renderJsonList xs ++ "]"
  | .obj fs => "\x7b" ++ renderJsonFields fs ++ "\x7d"

/-- Comma-separated serialization of a JSON array's elements. -/
def renderJsonList : List JValue → String
  | [] => ""
  | [x] => renderJson x
  | x :: rest => renderJson x ++ ", " ++ renderJsonList rest

/-- Comma-separated serialization of a JSON object's key-value pairs. -/
def renderJsonFields : List (String × JValue) → String
  | [] => ""
  | [(k, v)] => "\"" ++ escapeString k ++ "\": " ++ renderJson v
  | (k, v) :: rest =>
    "\"" ++ escapeString k ++ "\": " ++ renderJson v ++ ", " ++ renderJsonFields rest

end

/-! ## Backend interaction model -/

/-- Base URL of the star data-store service (`DATABASE_SERVICE_URL`). -/
def DATABASE_SERVICE_URL : String :=
  "https://starmap-service.delightfulwater-b24a63e0.uksouth.azurecontainerapps.io"

/-- Base URL of the moderation service (`FILTER_SERVICE_URL`). -/
def FILTER_SERVICE_URL : String :=
  "https://comment-filter.delightfulwater-b24a63e0.uksouth.azurecontainerapps.io"

inductive Method where
  | get
  | post
  | delete
deriving Repr, DecidableEq

/-- One outbound HTTP call issued by the gateway: method, full URL, and the
JSON body when one is sent (`json=star_data`). -/
structure BackendCall where
  method : Method
  url : String
  body : Option (List (String × JValue))
deriving Repr

/-- A backend service's answer to one call, as seen through `httpx`:
the status code, the raw body text (`resp.text`), and `resp.json()` —
`some v` when the body text parses as JSON `v`, `none` when `resp.json()`
would raise `JSONDecodeError`. -/
structure BackendResponse where
  status_code : Nat
  text : String
  jsonBody : Option JValue

/-- What a route handler produces, before the framework renders it:
  * `ok v` — the handler returned JSON `v` (HTTP 200);
  * `httpError s d hs` — `raise HTTPException(status_code=s, detail=d,
    headers=hs)`;
  * `validationError` — FastAPI rejected a path parameter before the
    handler ran (HTTP 422; its structured body is not modelled);
  * `crash` — an unhandled exception escaped the handler (e.g.
    `resp.json()` raising on a non-JSON body); the server middleware
    turns this into a plain-text 500. -/
inductive GatewayResult where
  | ok (body : JValue)
  | httpError (status : Nat) (detail : String) (headers : List (String × String))
  | validationError
  | crash
deriving Repr

/-- The wire-level response the caller sees. -/
structure HttpOut where
  status : Nat
  body : String
  headers : List (String × String)
deriving Repr

/-- How the framework renders a `GatewayResult` onto the wire: a returned
value is serialized as JSON; an `HTTPException` with a string detail
becomes `{"detail": <detail>}`; an unhandled exception becomes a
plain-text `500 Internal Server Error`.  (The structured body of a 422
validation error is left empty here; no theorem mentions it.) -/
def renderResult : GatewayResult → HttpOut
  | .ok v => ⟨200, renderJson v, []⟩
  | .httpError s d hs => ⟨s, renderJson (.obj [("detail", .str d)]), hs⟩
  | .validationError => ⟨422, "", []⟩
  | .crash => ⟨500, "Internal Server Error", []⟩

/-! ## Authentication (`oauth2_scheme` and `get_current_user`) -/

/-- Split a character list at the first space: everything before it and
everything after it. -/
def splitFirstSpace : List Char → List Char × List Char
  | [] => ([], [])
  | c :: rest =>
    if c = ' ' then ([], rest)
    else
      let r := splitFirstSpace rest
      (c :: r.1, r.2)

/-- `get_authorization_scheme_param` (`authorization.partition(" ")`):
split the header value at the first space into scheme and parameter. -/
def schemeParam (s : String) : String × String :=
  let r := splitFirstSpace s.toList
  (String.mk r.1, String.mk r.2)

/-- `scheme.lower()` on the ASCII scheme word. -/
def lowerAscii (s : String) : String :=
  String.mk (s.toList.map Char.toLower)

/-- The 401 raised by `OAuth2PasswordBearer` when the `Authorization`
header is missing or its scheme is not `bearer`. -/
def notAuthenticated : GatewayResult :=
  .httpError 401 "Not authenticated" [("WWW-Authenticate", "Bearer")]

/-- The `credentials_exception` built in `get_current_user`. -/
def credentials_exception : GatewayResult :=
  .httpError 401 "Could not validate credentials" [("WWW-Authenticate", "Bearer")]

/-- `OAuth2PasswordBearer.__call__`: extract the bearer token from the
`Authorization` header, or fail with 401 `Not authenticated`. -/
def oauth2_scheme (authorization : Option String) : Except GatewayResult String :=
  match authorization with
  | none => .error notAuthenticated
  | some s =>
    if s == "" then .error notAuthenticated
    else
      let (scheme, param) := schemeParam s
      if lowerAscii scheme == "bearer" then .ok param
      else .error notAuthenticated

/-- The outcome of `jwt.decode(token, SECRET_KEY, algorithms=[ALGORITHM])`:
either a `JWTError` (malformed token, bad signature, expired) or the
decoded claims dict.  The JWT library is external, so the decode function
is a parameter of the model. -/
def JwtDecode : Type := String → Except Unit (List (String × JValue))

/-- `get_current_user`: decode the token, read the `sub` claim, fail with
`credentials_exception` on `JWTError` or when the claim is absent/`None`
(`if email is None`). -/
def get_current_user (decode : JwtDecode) (token : String) :
    Except GatewayResult JValue :=
  match decode token with
  | .error _ => .error credentials_exception
  | .ok payload =>
    match jget payload "sub" with
    | none => .error credentials_exception
    | some .null => .error credentials_exception
    | some v => .ok v

/-- The full authentication gate a protected route passes through:
header extraction, then token verification. -/
def authenticate (authorization : Option String) (decode : JwtDecode) :
    Except GatewayResult JValue :=
  match oauth2_scheme authorization with
  | .error e => .error e
  | .ok token => get_current_user decode token

/-- Dependency resolution for a protected route: the security dependency
runs first; the handler body only runs with a verified identity, and a
failed gate makes no backend call. -/
def run_protected (authorization : Option String) (decode : JwtDecode)
    (handler : JValue → GatewayResult × List BackendCall) :
    GatewayResult × List BackendCall :=
  match authenticate authorization decode with
  | .error e => (e, [])
  | .ok user => handler user

/-! ## Route handlers -/

/-- `GET /stars`: fetch the star list from the data store; on non-200
propagate status and text as an `HTTPException`, otherwise return the
parsed JSON body. -/
def get_stars (resp : BackendResponse) : GatewayResult × List BackendCall :=
  let call : BackendCall := ⟨.get, DATABASE_SERVICE_URL ++ "/stars/", none⟩
  if resp.status_code != 200 then
    (.httpError resp.status_code resp.text [], [call])
  else
    match resp.jsonBody with
    | some v => (.ok v, [call])
    | none => (.crash, [call])

/-- `GET /stars/{star_id}`: the path parameter is untyped, so any string
is accepted and interpolated into the backend URL. -/
def get_star (star_id : String) (resp : BackendResponse) :
    GatewayResult × List BackendCall :=
  let call : BackendCall := ⟨.get, DATABASE_SERVICE_URL ++ "/stars/" ++ star_id, none⟩
  if resp.status_code != 200 then
    (.httpError resp.status_code resp.text [], [call])
  else
    match resp.jsonBody with
    | some v => (.ok v, [call])
    | none => (.crash, [call])

/-- The body of `create_star`, after authentication produced
`current_user`.  Faithful to the source order:
  1. `star_data["Username"] = current_user`;
  2. POST the stamped payload to the filter service;
  3. `print(..., resp.json())` — this parses the filter body *before* the
     status check, so a non-JSON filter body raises and the handler
     crashes whatever the status code was;
  4. on status 200, read `filter_response.get("status")` (an
     `AttributeError`/crash if the parsed body is not a dict) and branch
     on Python truthiness;
  5. acceptable: POST the stamped payload to the data store, propagate a
     non-200 as an `HTTPException`, else return the store's JSON body;
  6. not acceptable: return the filter's parsed body (HTTP 200);
  7. filter status non-200 (with a JSON body, by step 3): propagate
     status and text as an `HTTPException`. -/
def create_star (star_data : List (String × JValue)) (current_user : JValue)
    (filterResp dbResp : BackendResponse) : GatewayResult × List BackendCall :=
  let stamped := jset star_data "Username" current_user
  let filterCall : BackendCall := ⟨.post, FILTER_SERVICE_URL ++ "/filter", some stamped⟩
  match filterResp.jsonBody with
  | none => (.crash, [filterCall])
  | some filter_response =>
    if filterResp.status_code == 200 then
      match filter_response with
      | .obj fields =>
        let is_acceptable := jget fields "status"
        if truthyOpt is_acceptable then
          let dbCall : BackendCall := ⟨.post, DATABASE_SERVICE_URL ++ "/stars/", some stamped⟩
          if dbResp.status_code != 200 then
            (.httpError dbResp.status_code dbResp.text [], [filterCall, dbCall])
          else
            match dbResp.jsonBody with
            | some v => (.ok v, [filterCall, dbCall])
            | none => (.crash, [filterCall, dbCall])
        else
          (.ok filter_response, [filterCall])
      | _ => (.crash, [filterCall])
    else
      (.httpError filterResp.status_code filterResp.text [], [filterCall])

/-- `POST /stars` with its authentication gate. -/
def route_create_star (authorization : Option String) (decode : JwtDecode)
    (star_data : List (String × JValue)) (filterResp dbResp : BackendResponse) :
    GatewayResult × List BackendCall :=
  run_protected authorization decode
    (fun user => create_star star_data user filterResp dbResp)

/-- The body of `delete_star` once `star_id : int` has been validated. -/
def delete_star (star_id : Int) (resp : BackendResponse) :
    GatewayResult × List BackendCall :=
  let call : BackendCall :=
    ⟨.delete, DATABASE_SERVICE_URL ++ "/stars/" ++ toString star_id, none⟩
  if resp.status_code != 200 then
    (.httpError resp.status_code resp.text [], [call])
  else
    match resp.jsonBody with
    | some v => (.ok v, [call])
    | none => (.crash, [call])

/-- Accumulate a decimal digit string into a number; fail at the first
non-digit character. -/
def parseDigits : List Char → Nat → Option Nat
  | [], acc => some acc
  | c :: rest, acc =>
    if c.isDigit then parseDigits rest (acc * 10 + (c.toNat - 48))
    else none

/-- The framework's integer coercion for a `star_id : int` path
parameter: an optional sign followed by one or more decimal digits parses
to that integer, anything else is a validation failure. -/
def parseIntParam (s : String) : Option Int :=
  match s.toList with
  | [] => none
  | '-' :: rest =>
    match rest with
    | [] => none
    | _ => (parseDigits rest 0).map (fun n => -(n : Int))
  | '+' :: rest =>
    match rest with
    | [] => none
    | _ => (parseDigits rest 0).map (fun n => (n : Int))
  | cs => (parseDigits cs 0).map (fun n => (n : Int))

/-- `DELETE /stars/{star_id}`: the security dependency runs first, then
the `star_id : int` path parameter is validated (non-integer → 422
without running the handler), then the handler body. -/
def route_delete_star (authorization : Option String) (decode : JwtDecode)
    (star_id : String) (resp : BackendResponse) :
    GatewayResult × List BackendCall :=
  match authenticate authorization decode with
  | .error e => (e, [])
  | .ok _ =>
    match parseIntParam star_id with
    | none => (.validationError, [])
    | some n => delete_star n resp

/-- The body of `delete_all_stars`. -/
def delete_all_stars (resp : BackendResponse) : GatewayResult × List BackendCall :=
  let call : BackendCall := ⟨.delete, DATABASE_SERVICE_URL ++ "/stars", none⟩
  if resp.status_code != 200 then
    (.httpError resp.status_code resp.text [], [call])
  else
    match resp.jsonBody with
    | some v => (.ok v, [call])
    | none => (.crash, [call])

/-- `DELETE /stars` with its authentication gate. -/
def route_delete_all_stars (authorization : Option String) (decode : JwtDecode)
    (resp : BackendResponse) : GatewayResult × List BackendCall :=
  run_protected authorization decode (fun _ => delete_all_stars resp)

/-- The body of `like_star`; `star_id : str` accepts any string. -/
def like_star (star_id : String) (resp : BackendResponse) :
    GatewayResult × List BackendCall :=
  let call : BackendCall :=
    ⟨.post, DATABASE_SERVICE_URL ++ "/stars/" ++ star_id ++ "/like", none⟩
  if resp.status_code != 200 then
    (.httpError resp.status_code resp.text [], [call])
  else
    match resp.jsonBody with
    | some v => (.ok v, [call])
    | none => (.crash, [call])

/-- `POST /stars/{star_id}/like` with its authentication gate. -/
def route_like_star (authorization : Option String) (decode : JwtDecode)
    (star_id : String) (resp : BackendResponse) :
    GatewayResult × List BackendCall :=
  run_protected authorization decode (fun _ => like_star star_id resp)

/-- The body of `dislike_star`; `star_id : str` accepts any string. -/
def dislike_star (star_id : String) (resp : BackendResponse) :
    GatewayResult × List BackendCall :=
  let call : BackendCall :=
    ⟨.post, DATABASE_SERVICE_URL ++ "/stars/" ++ star_id ++ "/dislike", none⟩
  if resp.status_code != 200 then
    (.httpError resp.status_code resp.text [], [call])
  else
    match resp.jsonBody with
    | some v => (.ok v, [call])
    | none => (.crash, [call])

/-- `POST /stars/{star_id}/dislike` with its authentication gate. -/
def route_dislike_star (authorization : Option String) (decode : JwtDecode)
    (star_id : String) (resp : BackendResponse) :
    GatewayResult × List BackendCall :=
  run_protected authorization decode (fun _ => dislike_star star_id resp)

/-! ## Stream relay (`event_generator` in `stream_stars`) -/

/-- The relay loop
```
async for line in r.aiter_lines():
    if await request.is_disconnected():
        break
    yield f"{line}\n"
```
modelled over the backend's line sequence and the sampled disconnection
state: `disc i` is what `request.is_disconnected()` returns on its `i`-th
call.  Result: the lines forwarded to the caller (each with the appended
newline) and how many lines were pulled from the backend stream.  Each
loop iteration first pulls a line from `aiter_lines`, then samples the
disconnection check, then either breaks or forwards. -/
def event_generator : List String → (Nat → Bool) → List String × Nat
  | [], _ => ([], 0)
  | l :: rest, disc =>
    if disc 0 then ([], 1)
    else
      let r := event_generator rest (fun i => disc (i + 1))
      ((l ++ "\n") :: r.1, r.2 + 1)

/-! ## Helper lemmas -/

/-- After `d[k] = v`, `d.get(k)` returns `v`. -/
theorem jget_jset (fs : List (String × JValue)) (k : String) (v : JValue) :
    jget (jset fs k v) k = some v := by
  induction fs with
  | nil => simp [jset, jget]
  | cons p rest ih =>
    cases hp : p.1 == k with
    | true => simp [jset, hp, jget]
    | false => simp [jset, hp, jget, ih]

/-- The header-extraction step only ever fails with `notAuthenticated`. -/
theorem oauth2_scheme_error (a : Option String) (e : GatewayResult)
    (h : oauth2_scheme a = .error e) : e = notAuthenticated := by
  unfold oauth2_scheme at h
  cases a with
  | none => exact (Except.error.injEq _ _).mp h |>.symm
  | some s =>
    dsimp only at h
    split at h
    · exact (Except.error.injEq _ _).mp h |>.symm
    · split at h
      · exact absurd h (by simp)
      · exact (Except.error.injEq _ _).mp h |>.symm

/-- Token verification only ever fails with `credentials_exception`. -/
theorem get_current_user_error (d : JwtDecode) (t : String) (e : GatewayResult)
    (h : get_current_user d t = .error e) : e = credentials_exception := by
  unfold get_current_user at h
  split at h
  · exact (Except.error.injEq _ _).mp h |>.symm
  · split at h
    · exact (Except.error.injEq _ _).mp h |>.symm
    · exact (Except.error.injEq _ _).mp h |>.symm
    · exact absurd h (by simp)

/-- The whole authentication gate fails only with one of the two 401
results built in the source. -/
theorem authenticate_error_cases (a : Option String) (d : JwtDecode)
    (e : GatewayResult) (h : authenticate a d = .error e) :
    e = notAuthenticated ∨ e = credentials_exception := by
  unfold authenticate at h
  cases ha : oauth2_scheme a with
  | error e2 =>
    rw [ha] at h
    cases h
    exact Or.inl (oauth2_scheme_error a _ ha)
  | ok token =>
    rw [ha] at h
    exact Or.inr (get_current_user_error d token e h)

/-- Demo decode function for witnesses: every token decodes to a claims
dict whose `sub` is `user@example.com`. -/
def decodeDemo : JwtDecode := fun _ => .ok [("sub", .str "user@example.com")]

/-- Demo decode function for witnesses: every token raises `JWTError`. -/
def decodeReject : JwtDecode := fun _ => .error ()

/-- C4: on every protected route (create, delete by id, delete all, like,
dislike), a request whose bearer token is missing, malformed, invalid,
expired, or lacking a subject claim — i.e. whose authentication gate
fails — yields an HTTP 401 response carrying a `WWW-Authenticate: Bearer`
header, and the route makes zero backend calls. -/
theorem protected_routes_auth_failure_401_no_calls
    (a : Option String) (d : JwtDecode) (e : GatewayResult)
    (h : authenticate a d = .error e)
    (star_data : List (String × JValue)) (star_id : String)
    (fR dR r : BackendResponse) :
    route_create_star a d star_data fR dR = (e, []) ∧
    route_delete_star a d star_id r = (e, []) ∧
    route_delete_all_stars a d r = (e, []) ∧
    route_like_star a d star_id r = (e, []) ∧
    route_dislike_star a d star_id r = (e, []) ∧
    (renderResult e).status = 401 ∧
    ("WWW-Authenticate", "Bearer") ∈ (renderResult e).headers := by
  refine ⟨?_, ?_, ?_, ?_, ?_, ?_, ?_⟩
  · simp [route_create_star, run_protected, h]
  · simp [route_delete_star, h]
  · simp [route_delete_all_stars, run_protected, h]
  · simp [route_like_star, run_protected, h]
  · simp [route_dislike_star, run_protected, h]
  · rcases authenticate_error_cases a d e h with rfl | rfl <;>
      simp [renderResult, notAuthenticated, credentials_exception]
  · rcases authenticate_error_cases a d e h with rfl | rfl <;>
      simp [renderResult, notAuthenticated, credentials_exception]

/-- Witness for C4 at a concrete input: a request with no `Authorization`
header is rejected by every protected route with a 401 carrying the
Bearer challenge, and no backend call is made. -/
theorem protected_routes_auth_failure_401_no_calls_witness :
    authenticate none decodeDemo = .error notAuthenticated ∧
    (route_create_star none decodeDemo [] ⟨200, "", none⟩ ⟨200, "", none⟩
        = (notAuthenticated, []) ∧
     route_delete_star none decodeDemo "1" ⟨200, "", none⟩ = (notAuthenticated, []) ∧
     route_delete_all_stars none decodeDemo ⟨200, "", none⟩ = (notAuthenticated, []) ∧
     route_like_star none decodeDemo "1" ⟨200, "", none⟩ = (notAuthenticated, []) ∧
     route_dislike_star none decodeDemo "1" ⟨200, "", none⟩ = (notAuthenticated, []) ∧
     (renderResult notAuthenticated).status = 401 ∧
     ("WWW-Authenticate", "Bearer") ∈ (renderResult notAuthenticated).headers) :=
  ⟨rfl, protected_routes_auth_failure_401_no_calls none decodeDemo
    notAuthenticated rfl [] "1" ⟨200, "", none⟩ ⟨200, "", none⟩ ⟨200, "", none⟩⟩

/-- Every backend call `create_star` makes carries the identity-stamped
payload as its JSON body. -/
theorem create_star_call_bodies (sd : List (String × JValue)) (u : JValue)
    (fR dR : BackendResponse) :
    ∀ c ∈ (create_star sd u fR dR).2, c.body = some (jset sd "Username" u) := by
  intro c hc
  simp only [create_star] at hc
  split at hc
  · simp at hc; subst hc; rfl
  · split at hc
    · split at hc
      · split at hc
        · split at hc
          · simp at hc
            rcases hc with rfl | rfl <;> rfl
          · split at hc <;>
              (simp at hc; rcases hc with rfl | rfl <;> rfl)
        · simp at hc; subst hc; rfl
      · simp at hc; subst hc; rfl
    · simp at hc; subst hc; rfl

/-- C6: for every create-star request that passes authentication, the
token-derived identity is written into the payload's `Username` field
(overwriting any client-supplied value), and every backend call the route
makes — the moderation call and, when it happens, the data-store call —
carries exactly that stamped payload, on which the `Username` lookup
yields the token-derived identity. -/
theorem create_star_stamps_token_identity
    (a : Option String) (d : JwtDecode) (user : JValue)
    (hauth : authenticate a d = .ok user)
    (star_data : List (String × JValue)) (fR dR : BackendResponse) :
    ∀ c ∈ (route_create_star a d star_data fR dR).2,
      c.body = some (jset star_data "Username" user) ∧
      jget (jset star_data "Username" user) "Username" = some user := by
  intro c hc
  rw [route_create_star, run_protected, hauth] at hc
  exact ⟨create_star_call_bodies star_data user fR dR c hc, jget_jset _ _ _⟩

/-- Witness for C6: a concrete authenticated create request whose client
payload already carries a (different) `Username`; the filter call's body
shows the token identity overwrote it. -/
theorem create_star_stamps_token_identity_witness :
    authenticate (some "Bearer tok") decodeDemo = .ok (.str "user@example.com") ∧
    (⟨.post, FILTER_SERVICE_URL ++ "/filter",
        some [("Username", .str "user@example.com"), ("message", .str "hi")]⟩ : BackendCall) ∈
      (route_create_star (some "Bearer tok") decodeDemo
        [("Username", .str "spoofed"), ("message", .str "hi")]
        ⟨500, "down", some (.obj [])⟩ ⟨200, "", none⟩).2 ∧
    ((⟨.post, FILTER_SERVICE_URL ++ "/filter",
        some [("Username", .str "user@example.com"), ("message", .str "hi")]⟩ : BackendCall).body
      = some (jset [("Username", .str "spoofed"), ("message", .str "hi")]
          "Username" (.str "user@example.com")) ∧
     jget (jset [("Username", .str "spoofed"), ("message", .str "hi")]
          "Username" (.str "user@example.com")) "Username"
      = some (.str "user@example.com")) := by
  have htr : (route_create_star (some "Bearer tok") decodeDemo
      [("Username", .str "spoofed"), ("message", .str "hi")]
      ⟨500, "down", some (.obj [])⟩ ⟨200, "", none⟩).2
      = [⟨.post, FILTER_SERVICE_URL ++ "/filter",
          some [("Username", .str "user@example.com"), ("message", .str "hi")]⟩] := rfl
  have hmem : (⟨.post, FILTER_SERVICE_URL ++ "/filter",
      some [("Username", .str "user@example.com"), ("message", .str "hi")]⟩ : BackendCall) ∈
      (route_create_star (some "Bearer tok") decodeDemo
        [("Username", .str "spoofed"), ("message", .str "hi")]
        ⟨500, "down", some (.obj [])⟩ ⟨200, "", none⟩).2 := by
    rw [htr]; exact List.mem_singleton_self _
  exact ⟨rfl, hmem,
    create_star_stamps_token_identity (some "Bearer tok") decodeDemo
      (.str "user@example.com") rfl
      [("Username", .str "spoofed"), ("message", .str "hi")]
      ⟨500, "down", some (.obj [])⟩ ⟨200, "", none⟩ _ hmem⟩

/-- C2: for every authenticated create-star request whose moderation
response is 200 with verdict `{status: true}`, exactly two backend calls
occur — the filter call then the data-store create call, both carrying
the stamped payload — and when the data-store call returns 200 (with a
JSON body `v`) the gateway's response body is exactly `v`. -/
theorem create_star_acceptable_two_calls_then_store_body
    (a : Option String) (d : JwtDecode) (user : JValue)
    (hauth : authenticate a d = .ok user)
    (sd fields : List (String × JValue)) (fR dR : BackendResponse)
    (hfs : fR.status_code = 200)
    (hfb : fR.jsonBody = some (.obj fields))
    (hst : jget fields "status" = some (.bool true)) :
    (route_create_star a d sd fR dR).2 =
      [⟨.post, FILTER_SERVICE_URL ++ "/filter", some (jset sd "Username" user)⟩,
       ⟨.post, DATABASE_SERVICE_URL ++ "/stars/", some (jset sd "Username" user)⟩] ∧
    (∀ v, dR.status_code = 200 → dR.jsonBody = some v →
      (route_create_star a d sd fR dR).1 = .ok v) := by
  rw [route_create_star, run_protected, hauth]
  obtain ⟨dsc, dtext, djson⟩ := dR
  constructor
  · simp only [create_star, hfb, hfs, hst, truthyOpt, truthy,
      beq_self_eq_true, if_true]
    by_cases hd : dsc = 200
    · subst hd
      cases djson <;> simp
    · simp [bne_iff_ne, hd]
  · intro v h200 hjson
    simp only at h200 hjson
    subst h200
    simp [create_star, hfb, hfs, hst, truthyOpt, truthy, hjson]

/-- Witness for C2: a concrete authenticated request with an accepting
verdict makes the two calls in order and returns the data store's body. -/
theorem create_star_acceptable_witness :
    authenticate (some "Bearer tok") decodeDemo = .ok (.str "user@example.com") ∧
    ((route_create_star (some "Bearer tok") decodeDemo [("message", .str "hi")]
        ⟨200, "", some (.obj [("status", .bool true), ("message", .str "ok")])⟩
        ⟨200, "", some (.obj [("id", .num 3)])⟩).2 =
      [⟨.post, FILTER_SERVICE_URL ++ "/filter",
          some (jset [("message", .str "hi")] "Username" (.str "user@example.com"))⟩,
       ⟨.post, DATABASE_SERVICE_URL ++ "/stars/",
          some (jset [("message", .str "hi")] "Username" (.str "user@example.com"))⟩] ∧
     ∀ v, (200 : Nat) = 200 →
        some (JValue.obj [("id", .num 3)]) = some v →
        (route_create_star (some "Bearer tok") decodeDemo [("message", .str "hi")]
          ⟨200, "", some (.obj [("status", .bool true), ("message", .str "ok")])⟩
          ⟨200, "", some (.obj [("id", .num 3)])⟩).1 = .ok v) :=
  ⟨rfl, create_star_acceptable_two_calls_then_store_body
    (some "Bearer tok") decodeDemo (.str "user@example.com") rfl
    [("message", .str "hi")] [("status", .bool true), ("message", .str "ok")]
    ⟨200, "", some (.obj [("status", .bool true), ("message", .str "ok")])⟩
    ⟨200, "", some (.obj [("id", .num 3)])⟩ rfl rfl rfl⟩

/-- C3: for every authenticated create-star request whose moderation
response is 200 with verdict `{status: false}`, exactly one backend call
occurs (the filter call only), the gateway responds with HTTP status 200,
and the response body is the filter service's parsed response body —
rejection message included. -/
theorem create_star_rejected_single_call_filter_body
    (a : Option String) (d : JwtDecode) (user : JValue)
    (hauth : authenticate a d = .ok user)
    (sd fields : List (String × JValue)) (fR dR : BackendResponse)
    (hfs : fR.status_code = 200)
    (hfb : fR.jsonBody = some (.obj fields))
    (hst : jget fields "status" = some (.bool false)) :
    route_create_star a d sd fR dR =
      (.ok (.obj fields),
       [⟨.post, FILTER_SERVICE_URL ++ "/filter", some (jset sd "Username" user)⟩]) ∧
    (renderResult (route_create_star a d sd fR dR).1).status = 200 := by
  rw [route_create_star, run_protected, hauth]
  have h : create_star sd user fR dR =
      (.ok (.obj fields),
       [⟨.post, FILTER_SERVICE_URL ++ "/filter", some (jset sd "Username" user)⟩]) := by
    simp [create_star, hfb, hfs, hst, truthyOpt, truthy]
  dsimp only
  rw [h]
  exact ⟨rfl, rfl⟩

/-- Witness for C3 at a concrete rejected payload: one filter call, a 200
response, and the verdict body (message intact) returned verbatim. -/
theorem create_star_rejected_witness :
    authenticate (some "Bearer tok") decodeDemo = .ok (.str "user@example.com") ∧
    (route_create_star (some "Bearer tok") decodeDemo [("message", .str "bad words")]
        ⟨200, "", some (.obj [("status", .bool false), ("message", .str "rejected")])⟩
        ⟨200, "", none⟩ =
      (.ok (.obj [("status", .bool false), ("message", .str "rejected")]),
       [⟨.post, FILTER_SERVICE_URL ++ "/filter",
          some (jset [("message", .str "bad words")] "Username"
            (.str "user@example.com"))⟩]) ∧
     (renderResult (route_create_star (some "Bearer tok") decodeDemo
        [("message", .str "bad words")]
        ⟨200, "", some (.obj [("status", .bool false), ("message", .str "rejected")])⟩
        ⟨200, "", none⟩).1).status = 200) :=
  ⟨rfl, create_star_rejected_single_call_filter_body
    (some "Bearer tok") decodeDemo (.str "user@example.com") rfl
    [("message", .str "bad words")]
    [("status", .bool false), ("message", .str "rejected")]
    ⟨200, "", some (.obj [("status", .bool false), ("message", .str "rejected")])⟩
    ⟨200, "", none⟩ rfl rfl rfl⟩

/-- C9: for every authenticated create-star request whose moderation
response is 200 with a JSON object body on which `get("status")` is
absent or non-truthy in Python's sense (`None`, `False`, `0`, `""` all
non-truthy), the gateway takes the rejection branch: it returns that body
with HTTP 200 and never contacts the data store. -/
theorem create_star_nontruthy_status_rejects
    (a : Option String) (d : JwtDecode) (user : JValue)
    (hauth : authenticate a d = .ok user)
    (sd fields : List (String × JValue)) (fR dR : BackendResponse)
    (hfs : fR.status_code = 200)
    (hfb : fR.jsonBody = some (.obj fields))
    (hst : truthyOpt (jget fields "status") = false) :
    route_create_star a d sd fR dR =
      (.ok (.obj fields),
       [⟨.post, FILTER_SERVICE_URL ++ "/filter", some (jset sd "Username" user)⟩]) ∧
    (renderResult (route_create_star a d sd fR dR).1).status = 200 ∧
    truthyOpt none = false ∧ truthy .null = false ∧
    truthy (.bool false) = false ∧ truthy (.num 0) = false ∧
    truthy (.str "") = false := by
  rw [route_create_star, run_protected, hauth]
  have h : create_star sd user fR dR =
      (.ok (.obj fields),
       [⟨.post, FILTER_SERVICE_URL ++ "/filter", some (jset sd "Username" user)⟩]) := by
    simp [create_star, hfb, hfs, hst]
  dsimp only
  rw [h]
  exact ⟨rfl, rfl, rfl, rfl, rfl, by decide, rfl⟩

/-- Witness for C9 at a concrete input: a 200 verdict body with no
`status` key at all is returned with 200 and the data store is skipped. -/
theorem create_star_nontruthy_status_rejects_witness :
    authenticate (some "Bearer tok") decodeDemo = .ok (.str "user@example.com") ∧
    truthyOpt (jget [("message", .str "no verdict")] "status") = false ∧
    (route_create_star (some "Bearer tok") decodeDemo [("message", .str "hi")]
        ⟨200, "", some (.obj [("message", .str "no verdict")])⟩ ⟨200, "", none⟩ =
      (.ok (.obj [("message", .str "no verdict")]),
       [⟨.post, FILTER_SERVICE_URL ++ "/filter",
          some (jset [("message", .str "hi")] "Username"
            (.str "user@example.com"))⟩]) ∧
     (renderResult (route_create_star (some "Bearer tok") decodeDemo
        [("message", .str "hi")]
        ⟨200, "", some (.obj [("message", .str "no verdict")])⟩
        ⟨200, "", none⟩).1).status = 200 ∧
     truthyOpt none = false ∧ truthy .null = false ∧
     truthy (.bool false) = false ∧ truthy (.num 0) = false ∧
     truthy (.str "") = false) :=
  ⟨rfl, rfl,
    (create_star_nontruthy_status_rejects
      (some "Bearer tok") decodeDemo (.str "user@example.com") rfl
      [("message", .str "hi")] [("message", .str "no verdict")]
      ⟨200, "", some (.obj [("message", .str "no verdict")])⟩
      ⟨200, "", none⟩ rfl rfl rfl)⟩

/-- C1 (failing-input exhibit): an authenticated create request whose
moderation call fails with 404 and a body that is not valid JSON.  The
debug `print(..., resp.json())` on the handler's filter response runs
before the status-code check, so `resp.json()` raises and the gateway
answers 500 `Internal Server Error` instead of propagating the 404 —
although the data store is still never contacted (the trace holds only
the filter call). -/
theorem create_star_filter_error_non_json_crashes :
    route_create_star (some "Bearer tok") decodeDemo [("message", .str "hi")]
        ⟨404, "not found", none⟩ ⟨200, "", some (.obj [])⟩ =
      (.crash,
       [⟨.post, FILTER_SERVICE_URL ++ "/filter",
          some [("message", .str "hi"), ("Username", .str "user@example.com")]⟩]) ∧
    renderResult .crash = ⟨500, "Internal Server Error", []⟩ ∧
    (500 : Nat) ≠ 404 :=
  ⟨rfl, rfl, by decide⟩

/-- C5 counterexample: the data store answers `GET /stars` with 404 and
body `Star not found`; the gateway's response keeps the 404 status but
its body is the JSON wrapper `{"detail": "Star not found"}` — not the
backend body verbatim. -/
theorem backend_error_body_wrapped_counterexample :
    (renderResult (get_stars ⟨404, "Star not found", none⟩).1).status = 404 ∧
    (renderResult (get_stars ⟨404, "Star not found", none⟩).1).body =
      "\x7b\"detail\": \"Star not found\"\x7d" ∧
    "\x7b\"detail\": \"Star not found\"\x7d" ≠ "Star not found" :=
  ⟨rfl, rfl, by decide⟩

/-- C5 amended: for every route and every backend response with a status
code other than 200, the gateway's response keeps exactly that status
code, and its body is the JSON object `{"detail": <backend body text>}`
(the backend text survives, wrapped in the `detail` field rather than
verbatim).  For the create route's moderation call this holds provided
the error body parses as JSON — otherwise the handler's debug print
crashes it first (see C1). -/
theorem backend_error_status_preserved_detail_wrapped
    (resp : BackendResponse) (h : resp.status_code ≠ 200)
    (star_id : String) (sid : Int)
    (a : Option String) (d : JwtDecode) (user : JValue)
    (hauth : authenticate a d = .ok user)
    (sd fields : List (String × JValue)) (fR : BackendResponse)
    (hfs : fR.status_code = 200)
    (hfb : fR.jsonBody = some (.obj fields))
    (hacc : truthyOpt (jget fields "status") = true)
    (dR : BackendResponse) :
    renderResult (get_stars resp).1 =
      ⟨resp.status_code, renderJson (.obj [("detail", .str resp.text)]), []⟩ ∧
    renderResult (get_star star_id resp).1 =
      ⟨resp.status_code, renderJson (.obj [("detail", .str resp.text)]), []⟩ ∧
    renderResult (delete_star sid resp).1 =
      ⟨resp.status_code, renderJson (.obj [("detail", .str resp.text)]), []⟩ ∧
    renderResult (delete_all_stars resp).1 =
      ⟨resp.status_code, renderJson (.obj [("detail", .str resp.text)]), []⟩ ∧
    renderResult (like_star star_id resp).1 =
      ⟨resp.status_code, renderJson (.obj [("detail", .str resp.text)]), []⟩ ∧
    renderResult (dislike_star star_id resp).1 =
      ⟨resp.status_code, renderJson (.obj [("detail", .str resp.text)]), []⟩ ∧
    renderResult (route_create_star a d sd fR resp).1 =
      ⟨resp.status_code, renderJson (.obj [("detail", .str resp.text)]), []⟩ ∧
    (∀ j, resp.jsonBody = some j →
      renderResult (route_create_star a d sd resp dR).1 =
        ⟨resp.status_code, renderJson (.obj [("detail", .str resp.text)]), []⟩) := by
  have hb : (resp.status_code != 200) = true := by
    simpa [bne_iff_ne] using h
  have hb2 : (resp.status_code == 200) = false := by
    simpa [beq_iff_eq] using h
  refine ⟨?_, ?_, ?_, ?_, ?_, ?_, ?_, ?_⟩
  · simp [get_stars, hb, renderResult]
  · simp [get_star, hb, renderResult]
  · simp [delete_star, hb, renderResult]
  · simp [delete_all_stars, hb, renderResult]
  · simp [like_star, hb, renderResult]
  · simp [dislike_star, hb, renderResult]
  · rw [route_create_star, run_protected, hauth]
    dsimp only
    simp [create_star, hfb, hfs, hacc, hb, renderResult]
  · intro j hj
    rw [route_create_star, run_protected, hauth]
    dsimp only
    simp [create_star, hj, hb2, renderResult]

/-- Witness for amended C5, in two concrete instances: the plain-text
404 failure `Star not found` (not JSON — the counterexample's own input)
is relayed with status 404 and the `{"detail": ...}` wrapper body by all
seven unconditional routes, and a JSON-bodied 503 failure of the
moderation call is relayed the same way by the create route. -/
theorem backend_error_status_preserved_witness :
    (404 : Nat) ≠ 200 ∧ (503 : Nat) ≠ 200 ∧
    (renderResult (get_stars ⟨404, "Star not found", none⟩).1 =
      ⟨404, renderJson (.obj [("detail", .str "Star not found")]), []⟩ ∧
     renderResult (get_star "1" ⟨404, "Star not found", none⟩).1 =
      ⟨404, renderJson (.obj [("detail", .str "Star not found")]), []⟩ ∧
     renderResult (delete_star 1 ⟨404, "Star not found", none⟩).1 =
      ⟨404, renderJson (.obj [("detail", .str "Star not found")]), []⟩ ∧
     renderResult (delete_all_stars ⟨404, "Star not found", none⟩).1 =
      ⟨404, renderJson (.obj [("detail", .str "Star not found")]), []⟩ ∧
     renderResult (like_star "1" ⟨404, "Star not found", none⟩).1 =
      ⟨404, renderJson (.obj [("detail", .str "Star not found")]), []⟩ ∧
     renderResult (dislike_star "1" ⟨404, "Star not found", none⟩).1 =
      ⟨404, renderJson (.obj [("detail", .str "Star not found")]), []⟩ ∧
     renderResult (route_create_star (some "Bearer tok") decodeDemo
        [("message", .str "hi")] ⟨200, "", some (.obj [("status", .bool true)])⟩
        ⟨404, "Star not found", none⟩).1 =
      ⟨404, renderJson (.obj [("detail", .str "Star not found")]), []⟩ ∧
     (∀ j, (⟨404, "Star not found", none⟩ : BackendResponse).jsonBody = some j →
       renderResult (route_create_star (some "Bearer tok") decodeDemo
          [("message", .str "hi")] ⟨404, "Star not found", none⟩
          ⟨200, "", none⟩).1 =
        ⟨404, renderJson (.obj [("detail", .str "Star not found")]), []⟩)) ∧
    (∀ j, (⟨503, "\"backend down\"", some (.str "backend down")⟩ :
        BackendResponse).jsonBody = some j →
      renderResult (route_create_star (some "Bearer tok") decodeDemo
          [("message", .str "hi")]
          ⟨503, "\"backend down\"", some (.str "backend down")⟩
          ⟨200, "", none⟩).1 =
        ⟨503, renderJson (.obj [("detail", .str "\"backend down\"")]), []⟩) :=
  ⟨by decide, by decide,
   backend_error_status_preserved_detail_wrapped
     ⟨404, "Star not found", none⟩ (by decide)
     "1" 1 (some "Bearer tok") decodeDemo (.str "user@example.com") rfl
     [("message", .str "hi")] [("status", .bool true)]
     ⟨200, "", some (.obj [("status", .bool true)])⟩ rfl rfl rfl
     ⟨200, "", none⟩,
   (backend_error_status_preserved_detail_wrapped
     ⟨503, "\"backend down\"", some (.str "backend down")⟩ (by decide)
     "1" 1 (some "Bearer tok") decodeDemo (.str "user@example.com") rfl
     [("message", .str "hi")] [("status", .bool true)]
     ⟨200, "", some (.obj [("status", .bool true)])⟩ rfl rfl rfl
     ⟨200, "", none⟩).2.2.2.2.2.2.2⟩

/-- Disconnection trace for the stream relay in which the caller is gone
from the second `is_disconnected` sample onward, i.e. immediately after
receiving the first forwarded line. -/
def discAfterOne : Nat → Bool := fun i => decide (1 ≤ i)

/-- Disconnection trace in which the caller never disconnects. -/
def discNever : Nat → Bool := fun _ => false

/-- C7 counterexample: with backend lines `L1, L2, L3` and the caller
disconnecting right after receiving `L1`, the relay forwards only `L1`
but pulls **two** lines from the backend stream — `L2` is read before the
loop notices the disconnect and breaks — so "no further lines are read"
fails (2 ≠ 1). -/
theorem stream_relay_reads_one_line_after_disconnect :
    event_generator ["L1", "L2", "L3"] discAfterOne = (["L1\n"], 2) ∧
    (2 : Nat) ≠ 1 :=
  ⟨rfl, by decide⟩

/-- C7 amended: the relay checks for caller disconnection before
forwarding each line; once the caller has disconnected (from sample `k`
onward, i.e. after receiving `k` lines) nothing further is forwarded, and
at most one additional line is read from the backend before the loop
breaks: the forwarded output is exactly the first `k` lines and the
number of lines read is `min (length) (k + 1)`. -/
theorem stream_relay_disconnect_stops_relay
    (lines : List String) (k : Nat) (disc : Nat → Bool)
    (hdisc : ∀ i, disc i = true ↔ k ≤ i) :
    event_generator lines disc =
      ((lines.take k).map (fun l => l ++ "\n"), min lines.length (k + 1)) := by
  induction lines generalizing k disc with
  | nil => simp [event_generator]
  | cons l rest ih =>
    cases k with
    | zero =>
      have h0 : disc 0 = true := (hdisc 0).mpr (Nat.le_refl 0)
      simp [event_generator, h0]
    | succ k =>
      have h0 : disc 0 = false := by
        cases h : disc 0 with
        | false => rfl
        | true => exact absurd ((hdisc 0).mp h) (by omega)
      have ih' := ih k (fun i => disc (i + 1))
        (fun i => (hdisc (i + 1)).trans (by omega))
      simp only [event_generator, h0, Bool.false_eq_true, if_false, ih',
        List.take_succ_cons, List.map_cons, List.length_cons]
      rw [Prod.mk.injEq]
      exact ⟨rfl, by omega⟩

/-- Witness for amended C7: the caller disconnects after receiving `L1`
(`k = 1`); the relay forwards exactly `["L1\n"]` and reads
`min 3 2 = 2` lines. -/
theorem stream_relay_disconnect_stops_relay_witness :
    event_generator ["L1", "L2", "L3"] discAfterOne =
      ((["L1", "L2", "L3"].take 1).map (fun l => l ++ "\n"),
        min (["L1", "L2", "L3"].length) 2) :=
  stream_relay_disconnect_stops_relay ["L1", "L2", "L3"] 1 discAfterOne
    (fun i => by simp [discAfterOne])

/-- C8: while the caller stays connected, the relay forwards exactly the
backend's line sequence, in order, one forwarded unit per line with a
newline terminator appended to each — the output is
`map (· ++ "\n") lines` — and reads exactly as many lines as the backend
emitted. -/
theorem stream_relay_forwards_lines_in_order
    (lines : List String) (disc : Nat → Bool)
    (hdisc : ∀ i, disc i = false) :
    event_generator lines disc =
      (lines.map (fun l => l ++ "\n"), lines.length) := by
  induction lines generalizing disc with
  | nil => simp [event_generator]
  | cons l rest ih =>
    simp [event_generator, hdisc 0, ih (fun i => disc (i + 1)) (fun i => hdisc (i + 1))]

/-- Witness for C8 on a concrete three-line backend stream with a caller
that never disconnects. -/
theorem stream_relay_forwards_lines_in_order_witness :
    event_generator ["L1", "L2", "L3"] discNever =
      (["L1", "L2", "L3"].map (fun l => l ++ "\n"), ["L1", "L2", "L3"].length) :=
  stream_relay_forwards_lines_in_order ["L1", "L2", "L3"] discNever (fun _ => rfl)

/-- C10: the delete-star route requires an integer path parameter — for
an authenticated request whose `star_id` does not parse as an integer,
the gateway answers with the 422 validation error and makes no backend
call — whereas `GET /stars/{star_id}` and the like/dislike routes accept
an arbitrary string id and forward it to the backend inside the URL. -/
theorem delete_star_int_id_other_routes_any_string
    (a : Option String) (d : JwtDecode) (user : JValue)
    (hauth : authenticate a d = .ok user)
    (star_id : String) (hbad : parseIntParam star_id = none)
    (resp : BackendResponse) :
    route_delete_star a d star_id resp = (.validationError, []) ∧
    (renderResult .validationError).status = 422 ∧
    (get_star star_id resp).2 =
      [⟨.get, DATABASE_SERVICE_URL ++ "/stars/" ++ star_id, none⟩] ∧
    (route_like_star a d star_id resp).2 =
      [⟨.post, DATABASE_SERVICE_URL ++ "/stars/" ++ star_id ++ "/like", none⟩] ∧
    (route_dislike_star a d star_id resp).2 =
      [⟨.post, DATABASE_SERVICE_URL ++ "/stars/" ++ star_id ++ "/dislike", none⟩] := by
  refine ⟨?_, rfl, ?_, ?_, ?_⟩
  · rw [route_delete_star, hauth]
    dsimp only
    rw [hbad]
  · simp only [get_star]
    split
    · rfl
    · split <;> rfl
  · rw [route_like_star, run_protected, hauth]
    dsimp only
    simp only [like_star]
    split
    · rfl
    · split <;> rfl
  · rw [route_dislike_star, run_protected, hauth]
    dsimp only
    simp only [dislike_star]
    split
    · rfl
    · split <;> rfl

/-- Witness for C10: the non-numeric id `abc` is rejected with 422 by the
delete route (no backend call) but forwarded verbatim by the get, like
and dislike routes. -/
theorem delete_star_int_id_witness :
    parseIntParam "abc" = none ∧
    (route_delete_star (some "Bearer tok") decodeDemo "abc" ⟨200, "", none⟩ =
        (.validationError, []) ∧
     (renderResult .validationError).status = 422 ∧
     (get_star "abc" ⟨200, "", none⟩).2 =
       [⟨.get, DATABASE_SERVICE_URL ++ "/stars/" ++ "abc", none⟩] ∧
     (route_like_star (some "Bearer tok") decodeDemo "abc" ⟨200, "", none⟩).2 =
       [⟨.post, DATABASE_SERVICE_URL ++ "/stars/" ++ "abc" ++ "/like", none⟩] ∧
     (route_dislike_star (some "Bearer tok") decodeDemo "abc" ⟨200, "", none⟩).2 =
       [⟨.post, DATABASE_SERVICE_URL ++ "/stars/" ++ "abc" ++ "/dislike", none⟩]) :=
  ⟨rfl, delete_star_int_id_other_routes_any_string
    (some "Bearer tok") decodeDemo (.str "user@example.com") rfl
    "abc" rfl ⟨200, "", none⟩⟩

end StarsApp
